import Mathlib

/-!
Verification of the data-synchronization layer of the `swish` NBA stats
client.  The definitions below are a shallow embedding of the API service
module (`parseResponse`, `apiRequest`, `apiGet`, `formatDateForAPI`, the
endpoint fetch functions), of the query-client configuration in
`app/_layout.tsx`, and of the screen-level query wiring (dependent queries
gated by `enabled: !!parentData`, infinite-scroll pagination in
`app/news.tsx`).  JavaScript values occurring in API bodies are modelled by
the `Json` type; JavaScript `undefined` is modelled by `Option.none` where a
value may be absent.
-/

/-- A JSON value as produced by `response.json()`.  `undefined` is not a
JSON value; absence of a field is modelled by `jsGet` returning `none`. -/
inductive Json where
  | null : Json
  | bool : Bool → Json
  | num : Int → Json
  | str : String → Json
  | arr : List Json → Json
  | obj : List (String × Json) → Json

/-- Optional-chaining property access `j?.k` (equally, plain access on a
receiver known to be non-null): a field lookup on objects, `none`
(JavaScript `undefined`) on other non-null values, whose boxing cannot
throw.  A plain access `j.k` on a `null` receiver instead throws a
TypeError; that path is modelled where it occurs — by the
`typeErrorMessage` branches of `parseResponse` and `apiRequest`. -/
def jsGet (j : Json) (k : String) : Option Json :=
  match j with
  | .obj fields => (fields.find? (fun p => p.1 = k)).map (·.2)
  | _ => none

/-- JavaScript truthiness of a JSON value: `null`, `false`, `0` and `""` are
falsy; every other JSON value (including any array or object) is truthy. -/
def jsTruthy : Json → Bool
  | .null => false
  | .bool b => b
  | .num n => n != 0
  | .str s => s != ""
  | .arr _ => true
  | .obj _ => true

/-- Truthiness of a possibly-`undefined` value (`undefined` is falsy). -/
def jsTruthyOpt : Option Json → Bool
  | none => false
  | some j => jsTruthy j

/-- Whether a JSON value is the `null` literal. -/
def Json.isNull : Json → Bool
  | .null => true
  | _ => false

/-- The message of the TypeError thrown by a plain property access `null.k`
(`response.json()` can resolve to `null`, so this path is reachable). -/
def typeErrorMessage (k : String) : String :=
  "Cannot read properties of null (reading '" ++ k ++ "')"

/-- JavaScript `String(v)` on a JSON value (arrays stringify by joining
element strings with commas, `null` elements as empty, objects as
"[object Object]"). -/
def jsToString : Json → String
  | .null => "null"
  | .bool true => "true"
  | .bool false => "false"
  | .num n => toString n
  | .str s => s
  | .arr xs => String.intercalate "," (xs.attach.map fun a =>
      if a.1.isNull then "" else jsToString a.1)
  | .obj _ => "[object Object]"
decreasing_by
  have h := List.sizeOf_lt_of_mem a.2
  simp only [Json.arr.sizeOf_spec]
  omega

/-- `v === true` for a possibly-undefined JSON value. -/
def isTrueLit : Option Json → Bool
  | some (.bool true) => true
  | _ => false

/-- `v === false` for a possibly-undefined JSON value. -/
def isFalseLit : Option Json → Bool
  | some (.bool false) => true
  | _ => false

/-- The message of the thrown `ApiError`: `data.error.message || 'API error'`
(source line `throw new Error(data.error.message || 'API error')`). -/
def apiErrorMessage (err : Json) : String :=
  match jsGet err "message" with
  | some m => if jsTruthy m then jsToString m else "API error"
  | none => "API error"

/-- `parseResponse` from `src/services/api.ts`: unwraps the API envelope.
The very first statement reads `data.success`, which throws a TypeError
when the parsed body is `null`; on any other receiver no property access
in the function can throw (`data.data` and `data.error` share the same
non-null receiver, and `data.error.message` is only read when `data.error`
is truthy).  Past that, it returns `body.data` when
`body.success === true`; throws `error.message || 'API error'` when
`body.success === false` and `body.error` is truthy; returns the raw body
when `success` is absent (legacy fallback); otherwise throws
`'Invalid API response format'`.  A thrown error is modelled by
`Except.error` carrying its message. -/
def parseResponse (body : Json) : Except String (Option Json) :=
  if body.isNull then
    .error (typeErrorMessage "success")
  else if isTrueLit (jsGet body "success") then
    .ok (jsGet body "data")
  else if isFalseLit (jsGet body "success") && jsTruthyOpt (jsGet body "error") then
    .error (apiErrorMessage ((jsGet body "error").getD .null))
  else if (jsGet body "success").isNone then
    .ok (some body)
  else
    .error "Invalid API response format"

/-- An HTTP response as seen by `apiRequest`: status code, status text and
the parsed JSON body. -/
structure HttpResponse where
  status : Nat
  statusText : String
  body : Json

/-- `response.ok`: status in the inclusive range 200–299. -/
def responseOk (status : Nat) : Bool :=
  200 ≤ status && status ≤ 299

/-- The message of the error thrown for a non-2xx, non-429 response:
`` `HTTP ${response.status}: ${response.statusText}` ``. -/
def httpErrorMessage (status : Nat) (statusText : String) : String :=
  "HTTP " ++ toString status ++ ": " ++ statusText

/-- The message of the error thrown for HTTP 429. -/
def rateLimitMessage : String :=
  "Too many requests, please try again later"

/-- `apiRequest` from `src/services/api.ts` (the variant carrying the
`returnFullResponse` flag), modelled from the point the `Response` is
available.  Non-2xx statuses throw (429 a dedicated message); with
`returnFullResponse` the `data.success === false && data.error` check runs
first — its `data.success` access throws a TypeError on a `null` body —
and then the full body is returned; otherwise the body goes through
`parseResponse`. -/
def apiRequest (resp : HttpResponse) (returnFullResponse : Bool) :
    Except String (Option Json) :=
  if !responseOk resp.status then
    if resp.status = 429 then
      .error rateLimitMessage
    else
      .error (httpErrorMessage resp.status resp.statusText)
  else if returnFullResponse then
    if resp.body.isNull then
      .error (typeErrorMessage "success")
    else if isFalseLit (jsGet resp.body "success") && jsTruthyOpt (jsGet resp.body "error") then
      .error (apiErrorMessage ((jsGet resp.body "error").getD .null))
    else
      .ok (some resp.body)
  else
    parseResponse resp.body

/-- The endpoint fetch functions exported by `src/services/api.ts`. -/
inductive Endpoint where
  | games | standings | gameDetail | gameSummary
  | teamOverview | teamLeaders | teamRecentGames | teamSchedule
  | playerDetails | playerBio | playerCurrentStats | playerRegularStats
  | playerAdvancedStats | playerGameLog | playerStats | news

/-- Which fetch functions pass `returnFullResponse = true` to `apiGet`:
`fetchTeamSchedule` and `fetchNews` do, every other endpoint uses the
default `false`. -/
def returnsFullResponse : Endpoint → Bool
  | .teamSchedule => true
  | .news => true
  | _ => false

/-- The response handling performed by each endpoint fetch function, as a
function of the HTTP response it receives. -/
def endpointFetch (e : Endpoint) (resp : HttpResponse) :
    Except String (Option Json) :=
  apiRequest resp (returnsFullResponse e)

/-- The reduce step inside `apiGet`: keep the entries of `params` whose value
is neither `null` nor `undefined`, stringifying kept values with `String(v)`.
A param value of `none` models `undefined`, `some .null` models `null`. -/
def keptParams (params : List (String × Option Json)) : List (String × String) :=
  params.filterMap fun p =>
    match p.2 with
    | none => none
    | some v => if v.isNull then none else some (p.1, jsToString v)

/-- `new URLSearchParams(obj).toString()`: the entries joined as `k=v` pairs
with `&`.  (Percent-encoding of reserved characters is not modelled; no
claim depends on it.)  The result is empty exactly when there are no
entries. -/
def urlSearchParamsToString (entries : List (String × String)) : String :=
  String.intercalate "&" (entries.map fun p => p.1 ++ "=" ++ p.2)

/-- The URL built by `apiGet` from `src/services/api.ts`: the query string
from the kept params is appended after `?`, and a falsy (empty) query
string leaves the endpoint unchanged. -/
def apiGetUrl (endpoint : String) (params : List (String × Option Json)) :
    String :=
  let queryString := urlSearchParamsToString (keptParams params)
  if queryString = "" then endpoint else endpoint ++ "?" ++ queryString

/-! ### Calendar arithmetic and the dual-timezone date conversion

`formatDateForAPI` relies on the JavaScript `Date` parser for
`"YYYY-MM-DDT00:00:00+08:00"` and on
`toLocaleString('en-CA', { timeZone: 'America/New_York' })`.  Those
platform facilities are modelled with the standard civil-calendar
algorithms and the post-2007 United States daylight-saving rules for
America/New_York. -/

/-- Days since 1970-01-01 of the proleptic Gregorian date `y-m-d`. -/
def daysFromCivil (y m d : Int) : Int :=
  let y' := if m ≤ 2 then y - 1 else y
  let era := y'.fdiv 400
  let yoe := y' - era * 400
  let mp := if 2 < m then m - 3 else m + 9
  let doy := (153 * mp + 2).fdiv 5 + d - 1
  let doe := yoe * 365 + yoe.fdiv 4 - yoe.fdiv 100 + doy
  era * 146097 + doe - 719468

/-- The proleptic Gregorian date `(y, m, d)` of a days-since-epoch count. -/
def civilFromDays (z : Int) : Int × Int × Int :=
  let z' := z + 719468
  let era := z'.fdiv 146097
  let doe := z' - era * 146097
  let yoe := (doe - doe.fdiv 1460 + doe.fdiv 36524 - doe.fdiv 146096).fdiv 365
  let y := yoe + era * 400
  let doy := doe - (365 * yoe + yoe.fdiv 4 - yoe.fdiv 100)
  let mp := (5 * doy + 2).fdiv 153
  let d := doy - (153 * mp + 2).fdiv 5 + 1
  let m := if mp < 10 then mp + 3 else mp - 9
  (if m ≤ 2 then y + 1 else y, m, d)

/-- Day number of the second Sunday of March of year `y` (1970-01-01 was a
Thursday, so weekday 0 = Sunday is `(z + 4) mod 7`). -/
def secondSundayMarch (y : Int) : Int :=
  let first := daysFromCivil y 3 1
  let w := (first + 4).emod 7
  first + (7 - w).emod 7 + 7

/-- Day number of the first Sunday of November of year `y`. -/
def firstSundayNovember (y : Int) : Int :=
  let first := daysFromCivil y 11 1
  let w := (first + 4).emod 7
  first + (7 - w).emod 7

/-- Modelled from the tz rules for America/New_York in effect since 2007:
the offset from UTC, in minutes, at the UTC instant `t` (minutes since the
epoch).  Daylight-saving time runs from 02:00 EST on the second Sunday of
March to 02:00 EDT on the first Sunday of November; the offset is -240
minutes during DST and -300 minutes (EST) otherwise. -/
def newYorkOffsetMinutes (t : Int) : Int :=
  let y := (civilFromDays (t.fdiv 1440)).1
  let dstStart := secondSundayMarch y * 1440 + 2 * 60 + 300
  let dstEnd := firstSundayNovember y * 1440 + 2 * 60 + 240
  if dstStart ≤ t ∧ t < dstEnd then -240 else -300

/-- `String(n).padStart(2, '0')`. -/
def pad2 (n : Int) : String :=
  let s := toString n
  if s.length < 2 then "0" ++ s else s

/-- `formatDateForAPI` from `src/services/api.ts`.  The arguments are the
input `Date`'s calendar components (`getFullYear()`, `getMonth() + 1`,
`getDate()`).  The `Date` parsed from `"y-m-dT00:00:00+08:00"` is the UTC
instant 8 hours before that midnight; `toLocaleString('en-CA',
{ timeZone: 'America/New_York', ... })` re-expresses the instant in US
Eastern time, and the Eastern date components are concatenated as
`YYYYMMDD`. -/
def formatDateForAPI (year month day : Int) : String :=
  let chineseMidnight : Int := daysFromCivil year month day * 1440 - 8 * 60
  let localMinutes := chineseMidnight + newYorkOffsetMinutes chineseMidnight
  let c := civilFromDays (localMinutes.fdiv 1440)
  toString c.1 ++ pad2 c.2.1 ++ pad2 c.2.2

/-! ### Query client configuration (`app/_layout.tsx`) -/

/-- The `retry` default passed to the `QueryClient` in `app/_layout.tsx`. -/
def configuredRetry : Nat := 1

/-- The `staleTime` default (milliseconds) passed to the `QueryClient` in
`app/_layout.tsx`. -/
def configuredStaleTime : Nat := 5000

/-- Modelled from the spec: the query cache's retry loop.  `f n` is the
outcome of attempt `n` (0-indexed); the `fuel` argument is the number of
retries still allowed after the current attempt. -/
def retryFrom (f : Nat → Except String Json) (attempt : Nat) :
    Nat → Except String Json
  | 0 => f attempt
  | fuel + 1 =>
    match f attempt with
    | .ok v => .ok v
    | .error _ => retryFrom f (attempt + 1) fuel

/-- Modelled from the spec: running a query whose attempts yield `f 0`,
`f 1`, … under a configured `retry` count: the first attempt plus up to
`retry` retries, stopping at the first success. -/
def runQuery (f : Nat → Except String Json) (retry : Nat) :
    Except String Json :=
  retryFrom f 0 retry

/-- Modelled from the spec: the backoff delay, in milliseconds, before the
retry with 0-indexed `attemptIndex` — `min(1000 * 2^attemptIndex, 30000)`
(the caching library's default `retryDelay`, not overridden in
`app/_layout.tsx`). -/
def defaultRetryDelay (attemptIndex : Nat) : Nat :=
  min (1000 * 2 ^ attemptIndex) 30000

/-- Modelled from the spec: the cache's staleness decision in
`get(key, fetcher)`.  `lastFetchedAt = some T` when an entry for the key
exists and was fetched at `T`; `invalidated` when it was explicitly
invalidated.  `true` means a new fetch is issued; `false` means the cached
entry is returned without calling the fetcher. -/
def shouldFetch (lastFetchedAt : Option Nat) (invalidated : Bool)
    (now staleTime : Nat) : Bool :=
  match lastFetchedAt with
  | none => true
  | some t => invalidated || decide (t + staleTime ≤ now)

/-! ### Dependent queries

`app/player/[id].tsx` gates `playerBio` (and the other secondary player
queries) with `enabled: !!details`, and `app/team/[id].tsx` gates
`teamLeaders` with `enabled: !!overview`, where `details` / `overview` is
the `data` of the parent query.  The query lifecycle itself (a disabled
query never fetches and stays idle; a parent query's `data` is set exactly
when it succeeds) is modelled from the spec as a small transition
system. -/

/-- Status of a query entry. -/
inductive QStatus where
  | idle | loading | success | err
deriving DecidableEq

/-- Combined state of a parent query and one dependent query gated on it,
together with a count of network calls issued by the dependent query. -/
structure DepState where
  parentStatus : QStatus
  parentData : Option Json
  depStatus : QStatus
  depRequests : Nat

/-- The `enabled` flag computed by the screen: `!!details` — JavaScript
double negation of the parent query's `data`. -/
def depEnabled (parentData : Option Json) : Bool :=
  jsTruthyOpt parentData

/-- Modelled from the spec: one scheduling step of the two-query system.
The parent runs the ordinary lifecycle `idle → loading → success/error`,
acquiring `data` exactly on success; the dependent query may leave `idle`
(issuing its one network call) only while its `enabled` flag is true, and
then completes like any query. -/
inductive DepStep : DepState → DepState → Prop where
  | parentStart (s : DepState) :
      s.parentStatus = .idle →
      DepStep s { s with parentStatus := .loading }
  | parentSucceed (s : DepState) (d : Json) :
      s.parentStatus = .loading →
      DepStep s { s with parentStatus := .success, parentData := some d }
  | parentFail (s : DepState) :
      s.parentStatus = .loading →
      DepStep s { s with parentStatus := .err }
  | depStart (s : DepState) :
      s.depStatus = .idle →
      depEnabled s.parentData = true →
      DepStep s { s with depStatus := .loading,
                         depRequests := s.depRequests + 1 }
  | depSucceed (s : DepState) :
      s.depStatus = .loading →
      DepStep s { s with depStatus := .success }
  | depFail (s : DepState) :
      s.depStatus = .loading →
      DepStep s { s with depStatus := .err }

/-- The initial state: both queries idle, no parent data, no dependent
network calls. -/
def depInit : DepState :=
  { parentStatus := .idle, parentData := none, depStatus := .idle,
    depRequests := 0 }

/-- States reachable from the initial state by scheduling steps. -/
inductive DepReachable : DepState → Prop where
  | init : DepReachable depInit
  | step {s t : DepState} : DepReachable s → DepStep s t → DepReachable t

/-! ### Infinite-scroll pagination

The news feed (`app/news.tsx`) and the team schedule (`app/team/[id].tsx`)
use infinite queries.  The per-screen `getNextPageParam` functions and
end-of-list handlers are translated from the source; the infinite-query
bookkeeping (`hasNextPage`, the in-flight flag, appending a completed
page) is modelled from the spec. -/

/-- `getNextPageParam` of the news infinite query in `app/news.tsx`:
`const pagination = lastPage?.meta?.pagination;`
`return pagination?.hasMore ? pagination.nextPage : undefined;`. -/
def newsGetNextPageParam (lastPage : Option Json) : Option Json :=
  let pagination := (lastPage.bind (jsGet · "meta")).bind (jsGet · "pagination")
  if jsTruthyOpt (pagination.bind (jsGet · "hasMore")) then
    pagination.bind (jsGet · "nextPage")
  else
    none

/-- `getNextPageParam` of the team-schedule infinite query in
`app/team/[id].tsx`:
`const { pagination } = lastPage.meta;`
`return pagination.page < pagination.pages ? pagination.page + 1 : undefined;`
modelled on well-formed bodies (`meta.pagination` present with numeric
`page` and `pages`; on other bodies the JavaScript would throw or compare
against `undefined`, yielding no next page). -/
def scheduleGetNextPageParam (lastPage : Option Json) : Option Json :=
  match (lastPage.bind (jsGet · "meta")).bind (jsGet · "pagination") with
  | some pg =>
    match jsGet pg "page", jsGet pg "pages" with
    | some (.num p), some (.num q) =>
        if p < q then some (.num (p + 1)) else none
    | _, _ => none
  | none => none

/-- State of one infinite query: the pages fetched so far (in fetch order),
whether a next-page fetch is in flight, and the log of page params for
which next-page requests have been issued. -/
structure PagedState where
  pages : List Json
  fetchingNext : Bool
  issuedRequests : List Json

/-- Modelled from the spec: `hasNextPage` — the param computed from the
most recent page is neither `undefined` nor `null`. -/
def hasNextPage (next : Option Json → Option Json) (pages : List Json) :
    Bool :=
  match next pages.getLast? with
  | none => false
  | some .null => false
  | some _ => true

/-- Modelled from the spec: `fetchNextPage()` — a no-op while a next-page
fetch is already in flight or when there is no next page param; otherwise
it issues one request carrying the param computed from the latest page. -/
def fetchNextPage (next : Option Json → Option Json) (s : PagedState) :
    PagedState :=
  if s.fetchingNext then s
  else
    match next s.pages.getLast? with
    | none => s
    | some .null => s
    | some p =>
        { s with fetchingNext := true,
                 issuedRequests := s.issuedRequests ++ [p] }

/-- The `onEndReached` handler in `app/news.tsx`:
`if (hasNextPage && !isFetchingNextPage) { fetchNextPage(); }`. -/
def onEndReached (next : Option Json → Option Json) (s : PagedState) :
    PagedState :=
  if hasNextPage next s.pages && !s.fetchingNext then
    fetchNextPage next s
  else
    s

/-- Modelled from the spec: successful completion of a next-page fetch —
the fetched page is appended to the sequence and the in-flight flag
cleared. -/
def completeNextPage (s : PagedState) (page : Json) : PagedState :=
  { s with pages := s.pages ++ [page], fetchingNext := false }

/-- `page.data?.tweets || []` as a list of items: the truthy `tweets` value
spread by `flatMap` (an array contributes its elements, any other truthy
value itself, a falsy or absent value nothing). -/
def pageTweets (page : Json) : List Json :=
  match (jsGet page "data").bind (jsGet · "tweets") with
  | none => []
  | some v =>
      if jsTruthy v then
        match v with
        | .arr xs => xs
        | x => [x]
      else []

/-- `allTweets` from `app/news.tsx`:
`data?.pages.flatMap(page => page.data?.tweets || []) ?? []`. -/
def allTweets (pages : List Json) : List Json :=
  pages.flatMap pageTweets

/-! ### Helper lemmas -/

theorem isNull_false_of_jsGet_some {body : Json} {k : String} {v : Json}
    (h : jsGet body k = some v) : body.isNull = false := by
  cases body with
  | null => exact absurd h (by simp [jsGet])
  | bool b => rfl
  | num n => rfl
  | str s => rfl
  | arr xs => rfl
  | obj fs => rfl

theorem isNull_false_of_isTrueLit {body : Json}
    (h : isTrueLit (jsGet body "success") = true) : body.isNull = false := by
  cases body with
  | null => exact absurd h (by simp [jsGet, isTrueLit])
  | bool b => rfl
  | num n => rfl
  | str s => rfl
  | arr xs => rfl
  | obj fs => rfl

theorem parseResponse_of_null : parseResponse Json.null
    = .error (typeErrorMessage "success") := rfl

theorem parseResponse_of_true {body : Json}
    (h : isTrueLit (jsGet body "success") = true) :
    parseResponse body = .ok (jsGet body "data") := by
  simp [parseResponse, isNull_false_of_isTrueLit h, h]

theorem parseResponse_of_apiError {body e : Json}
    (hs : jsGet body "success" = some (.bool false))
    (he : jsGet body "error" = some e) (ht : jsTruthy e = true) :
    parseResponse body = .error (apiErrorMessage e) := by
  simp [parseResponse, isNull_false_of_jsGet_some hs, hs, he, isTrueLit,
    isFalseLit, jsTruthyOpt, ht]

theorem parseResponse_of_legacy {body : Json} (hnn : body.isNull = false)
    (h : jsGet body "success" = none) :
    parseResponse body = .ok (some body) := by
  simp [parseResponse, hnn, h, isTrueLit, isFalseLit]

theorem parseResponse_of_nonbool {body j : Json}
    (hs : jsGet body "success" = some j) (hb : ∀ b, j ≠ .bool b) :
    parseResponse body = .error "Invalid API response format" := by
  have h1 : isTrueLit (some j) = false := by
    cases j with
    | bool b => exact absurd rfl (hb b)
    | null => rfl
    | num n => rfl
    | str s => rfl
    | arr xs => rfl
    | obj fs => rfl
  have h2 : isFalseLit (some j) = false := by
    cases j with
    | bool b => exact absurd rfl (hb b)
    | null => rfl
    | num n => rfl
    | str s => rfl
    | arr xs => rfl
    | obj fs => rfl
  simp [parseResponse, isNull_false_of_jsGet_some hs, hs, h1, h2]

theorem apiErrorMessage_str {e : Json} {m : String}
    (hm : jsGet e "message" = some (.str m)) (hne : m ≠ "") :
    apiErrorMessage e = m := by
  simp [apiErrorMessage, hm, jsTruthy, jsToString, hne]

theorem http_prefix_ne_rateLimit (r : String) :
    "HTTP " ++ r ≠ rateLimitMessage := by
  intro h
  have h2 : ("HTTP " ++ r).data = rateLimitMessage.data := congrArg String.data h
  rw [String.data_append] at h2
  have h3 : "HTTP ".data = ['H', 'T', 'T', 'P', ' '] := by decide
  rw [h3] at h2
  have h4 : rateLimitMessage.data.head? = some 'T' := by decide
  rw [← h2] at h4
  simp at h4

theorem httpErrorMessage_ne_rateLimit (s : Nat) (t : String) :
    httpErrorMessage s t ≠ rateLimitMessage := by
  have : httpErrorMessage s t = "HTTP " ++ (toString s ++ ": " ++ t) := by
    simp [httpErrorMessage, String.append_assoc]
  rw [this]
  exact http_prefix_ne_rateLimit _

/-! ### Claim theorems -/

/-- C1 counterexample: the `null` body — a JSON response body with no
`success` field at all — is not returned raw: the source's very first
statement `data.success === true` throws a TypeError on it. -/
theorem parseResponse_null_cex :
    jsGet Json.null "success" = none ∧
    parseResponse Json.null = .error (typeErrorMessage "success") ∧
    parseResponse Json.null ≠ .ok (some Json.null) := by
  refine ⟨rfl, rfl, ?_⟩
  intro h
  rw [show parseResponse Json.null = .error (typeErrorMessage "success")
    from rfl] at h
  exact Except.noConfusion h

/-- C1 amended: a `null` body makes the `success` access throw a
TypeError; for every other body, `parseResponse` returns `body.data` when
the body has `success === true`; throws an error carrying `error.message`
when the body has `success === false` and a (truthy) `error` field;
returns the raw body unchanged when the (non-null) body has no `success`
field; and throws the `'Invalid API response format'` error for any other
shape, e.g. `success` set to a non-boolean value. -/
theorem parseResponse_cases (body : Json) :
    (body.isNull = true →
      parseResponse body = .error (typeErrorMessage "success")) ∧
    (isTrueLit (jsGet body "success") = true →
      parseResponse body = .ok (jsGet body "data")) ∧
    (∀ e msg, jsGet body "success" = some (.bool false) →
      jsGet body "error" = some e → jsTruthy e = true →
      jsGet e "message" = some (.str msg) → msg ≠ "" →
      parseResponse body = .error msg) ∧
    (body.isNull = false → jsGet body "success" = none →
      parseResponse body = .ok (some body)) ∧
    (∀ j, jsGet body "success" = some j → (∀ b, j ≠ .bool b) →
      parseResponse body = .error "Invalid API response format") := by
  refine ⟨fun hn => ?_, parseResponse_of_true, ?_, parseResponse_of_legacy,
    fun j hs hb => parseResponse_of_nonbool hs hb⟩
  · cases body with
    | null => exact parseResponse_of_null
    | bool b => exact Bool.noConfusion hn
    | num n => exact Bool.noConfusion hn
    | str s => exact Bool.noConfusion hn
    | arr xs => exact Bool.noConfusion hn
    | obj fs => exact Bool.noConfusion hn
  · intro e msg hs he ht hm hne
    rw [parseResponse_of_apiError hs he ht, apiErrorMessage_str hm hne]

/-- C1 amended witness: the null body plus the four envelope shapes from
the spec's test vector. -/
theorem parseResponse_cases_witness :
    parseResponse Json.null = .error (typeErrorMessage "success") ∧
    parseResponse (.obj [("success", .bool true), ("data", .obj [("x", .num 1)])])
      = .ok (some (.obj [("x", .num 1)])) ∧
    parseResponse (.obj [("success", .bool false),
        ("error", .obj [("message", .str "boom")])]) = .error "boom" ∧
    parseResponse (.obj [("x", .num 1)]) = .ok (some (.obj [("x", .num 1)])) ∧
    parseResponse (.obj [("success", .str "nope")])
      = .error "Invalid API response format" := by
  refine ⟨?_, ?_, ?_, ?_, ?_⟩
  · exact (parseResponse_cases Json.null).1 rfl
  · exact (parseResponse_cases _).2.1 rfl
  · exact (parseResponse_cases _).2.2.1 _ "boom" rfl rfl rfl rfl (by decide)
  · exact (parseResponse_cases _).2.2.2.1 rfl rfl
  · exact (parseResponse_cases _).2.2.2.2 (.str "nope") rfl
      (fun b h => Json.noConfusion h)

/-- C10: a body with `success === false` but a falsy (or absent) `error`
field is not turned into an `ApiError`; it falls through to the
malformed-response branch. -/
theorem parseResponse_falsyError_malformed (body : Json)
    (hs : jsGet body "success" = some (.bool false))
    (he : jsTruthyOpt (jsGet body "error") = false) :
    parseResponse body = .error "Invalid API response format" := by
  simp [parseResponse, isNull_false_of_jsGet_some hs, hs, isTrueLit,
    isFalseLit, he]

/-- C10 witness: `{success: false, error: null}` is malformed, not an
ApiError. -/
theorem parseResponse_falsyError_malformed_witness :
    parseResponse (.obj [("success", .bool false), ("error", .null)])
      = .error "Invalid API response format" :=
  parseResponse_falsyError_malformed _ rfl rfl

/-- C7: every response with a non-2xx status fails: status 429 with the
dedicated rate-limit error, every other non-2xx status with the error
embedding the status code and status text; the two error messages are
distinguishable for all statuses. -/
theorem apiRequest_http_failure (resp : HttpResponse) (full : Bool)
    (h : responseOk resp.status = false) :
    (resp.status = 429 → apiRequest resp full = .error rateLimitMessage) ∧
    (resp.status ≠ 429 →
      apiRequest resp full
        = .error (httpErrorMessage resp.status resp.statusText)) ∧
    (∀ s t, httpErrorMessage s t ≠ rateLimitMessage) := by
  refine ⟨fun h429 => ?_, fun h429 => ?_, httpErrorMessage_ne_rateLimit⟩
  · simp [apiRequest, h429, (by decide : responseOk 429 = false)]
  · simp [apiRequest, h, h429]

/-- C7 witness: a 404 and a 429 response. -/
theorem apiRequest_http_failure_witness :
    apiRequest ⟨404, "Not Found", .obj []⟩ false
      = .error (httpErrorMessage 404 "Not Found") ∧
    apiRequest ⟨429, "Too Many Requests", .obj []⟩ false
      = .error rateLimitMessage :=
  ⟨(apiRequest_http_failure ⟨404, "Not Found", .obj []⟩ false (by decide)).2.1
      (by decide),
   (apiRequest_http_failure ⟨429, "Too Many Requests", .obj []⟩ false
      (by decide)).1 rfl⟩

/-- C8: `formatDateForAPI` on the calendar date 2026-01-15 (a UTC+8
midnight instant) yields the prior US Eastern calendar day `"20260114"`,
under the UTC offset rules in effect for that date (EST, UTC-5). -/
theorem formatDateForAPI_20260115 : formatDateForAPI 2026 1 15 = "20260114" := by
  decide

/-- C9: `apiGet` keeps exactly the params that are neither `null` nor
`undefined`, stringified with `String(value)`; when no params remain the
URL is the bare endpoint, carrying no `?`. -/
theorem apiGet_params (endpoint : String)
    (params : List (String × Option Json)) :
    (∀ k v, (k, v) ∈ keptParams params ↔
      ∃ j, (k, some j) ∈ params ∧ j.isNull = false ∧ v = jsToString j) ∧
    (keptParams params = [] → apiGetUrl endpoint params = endpoint) ∧
    ('?' ∉ endpoint.data → keptParams params = [] →
      '?' ∉ (apiGetUrl endpoint params).data) := by
  refine ⟨?_, ?_, ?_⟩
  · intro k v
    constructor
    · intro hmem
      rcases List.mem_filterMap.mp hmem with ⟨⟨k', v'⟩, hp, hf⟩
      cases v' with
      | none => simp at hf
      | some j =>
        by_cases hn : j.isNull
        · simp [hn] at hf
        · simp [hn] at hf
          exact ⟨j, by rwa [hf.1] at hp, by simpa using hn, hf.2.symm⟩
    · rintro ⟨j, hj, hn, hv⟩
      exact List.mem_filterMap.mpr ⟨(k, some j), hj, by simp [hn, hv]⟩
  · intro hk
    have h0 : urlSearchParamsToString (keptParams params) = "" := by
      rw [hk]; rfl
    simp [apiGetUrl, h0]
  · intro hq hk
    have h0 : urlSearchParamsToString (keptParams params) = "" := by
      rw [hk]; rfl
    simpa [apiGetUrl, h0] using hq

/-- C9 witness: a params record with an `undefined` and a `null` entry
yields the bare endpoint; a numeric entry is kept stringified. -/
theorem apiGet_params_witness :
    apiGetUrl "/api/v1/nba/standings" [("date", none), ("page", some .null)]
      = "/api/v1/nba/standings" ∧
    ("page", "1") ∈ keptParams [("refresh", none), ("page", some (.num 1))] := by
  constructor
  · exact (apiGet_params "/api/v1/nba/standings" _).2.1 rfl
  · exact ((apiGet_params "/x" _).1 "page" "1").mpr
      ⟨.num 1, List.mem_cons_of_mem _ (List.mem_cons_self _ _), rfl,
       by simp [jsToString]; decide⟩

/-- C6: the configured staleTime is 5000 ms (5 seconds); for a key fetched
at time T, a request at T' < T + 5000 returns the cached entry without
invoking the fetcher, and a request at T' ≥ T + 5000 triggers a new
fetch. -/
theorem staleness_policy (T T' : Nat) :
    configuredStaleTime = 5000 ∧
    (T' < T + configuredStaleTime →
      shouldFetch (some T) false T' configuredStaleTime = false) ∧
    (T + configuredStaleTime ≤ T' →
      shouldFetch (some T) false T' configuredStaleTime = true) := by
  refine ⟨rfl, ?_, ?_⟩ <;> intro h <;> simp [shouldFetch] <;> omega

/-- C6 witness: a request 100 ms after the fetch hits the cache; one
exactly 5000 ms after triggers a refetch. -/
theorem staleness_policy_witness :
    shouldFetch (some 0) false 100 configuredStaleTime = false ∧
    shouldFetch (some 0) false 5000 configuredStaleTime = true :=
  ⟨(staleness_policy 0 100).2.1 (by decide),
   (staleness_policy 0 5000).2.2 (by decide)⟩

/-- C2 counterexample: the query client configures `retry: 1`, so a fetcher
failing on attempts 0 and 1 is never given a 3rd attempt — the query ends
in error even though attempt 2 would succeed. -/
theorem retryPolicy_cex :
    configuredRetry = 1 ∧
    runQuery (fun n => if n < 2 then .error "boom" else .ok (.num 7))
      configuredRetry = .error "boom" ∧
    runQuery (fun n => if n < 2 then .error "boom" else .ok (.num 7))
      configuredRetry ≠ .ok (.num 7) ∧
    ((fun n => if n < 2 then .error "boom" else .ok (.num 7)) :
      Nat → Except String Json) 2 = .ok (.num 7) := by
  refine ⟨rfl, rfl, ?_, rfl⟩
  intro h
  rw [show runQuery
      (fun n => if n < 2 then Except.error "boom" else Except.ok (Json.num 7))
      configuredRetry = Except.error "boom" from rfl] at h
  exact Except.noConfusion h

/-- C2 amended: on failure the cache automatically retries up to the
configured maximum of 1 retry (2 attempts total), with the library-default
exponential backoff delay `min(1000ms · 2^attemptIndex, 30000ms)` before
each retry, so a fetch that fails once and succeeds on the 2nd attempt
ends in success with the 2nd attempt's data, while a fetch that fails
twice ends in error. -/
theorem retryPolicy_amended (f : Nat → Except String Json) :
    configuredRetry = 1 ∧
    (∀ v, f 0 = .ok v → runQuery f configuredRetry = .ok v) ∧
    (∀ e v, f 0 = .error e → f 1 = .ok v →
      runQuery f configuredRetry = .ok v) ∧
    (∀ e0 e1, f 0 = .error e0 → f 1 = .error e1 →
      runQuery f configuredRetry = .error e1) ∧
    defaultRetryDelay 0 = 1000 ∧ defaultRetryDelay 1 = 2000 ∧
    (∀ i j, i ≤ j → defaultRetryDelay i ≤ defaultRetryDelay j) ∧
    (∀ i, defaultRetryDelay i ≤ 30000) := by
  refine ⟨rfl, ?_, ?_, ?_, rfl, rfl, ?_, ?_⟩
  · intro v h0
    simp [runQuery, retryFrom, h0]
  · intro e v h0 h1
    simp [runQuery, retryFrom, h0, h1]
  · intro e0 e1 h0 h1
    simp [runQuery, retryFrom, h0, h1]
  · intro i j hij
    exact min_le_min (Nat.mul_le_mul_left _ (Nat.pow_le_pow_right (by omega) hij))
      le_rfl
  · intro i
    exact min_le_right _ _

/-- C2 amended witness: a fetcher failing only on attempt 0 ends in
success with attempt 1's data. -/
theorem retryPolicy_amended_witness :
    runQuery (fun n => if n = 0 then .error "boom" else .ok (.num 7))
      configuredRetry = .ok (.num 7) ∧
    defaultRetryDelay 0 ≤ defaultRetryDelay 1 :=
  ⟨(retryPolicy_amended _).2.2.1 "boom" (.num 7) rfl rfl,
   (retryPolicy_amended fun _ => .ok .null).2.2.2.2.2.2.1 0 1 (by decide)⟩

/-- C3 counterexample: `fetchNews` (and `fetchTeamSchedule`) request the
full response, so on a `success: true` body the news fetch returns the raw
wrapped envelope — the returned value still carries the `success` field,
unlike the unwrapped `data` payload — and an unrecognized shape
(`success: "nope"`) is returned raw instead of producing the
malformed-response error. -/
theorem envelopeUniformity_cex :
    endpointFetch .news
      ⟨200, "OK", .obj [("success", .bool true), ("data", .obj [("x", .num 1)])]⟩
      = .ok (some (.obj [("success", .bool true),
          ("data", .obj [("x", .num 1)])])) ∧
    jsGet (.obj [("success", .bool true), ("data", .obj [("x", .num 1)])])
      "data" = some (.obj [("x", .num 1)]) ∧
    jsGet (.obj [("success", .bool true), ("data", .obj [("x", .num 1)])])
      "success" = some (.bool true) ∧
    jsGet (.obj [("x", .num 1)]) "success" = none ∧
    endpointFetch .news ⟨200, "OK", .obj [("success", .str "nope")]⟩
      = .ok (some (.obj [("success", .str "nope")])) :=
  ⟨rfl, rfl, rfl, rfl, rfl⟩

/-- C3 amended: every endpoint except `fetchTeamSchedule` and `fetchNews`
receives the `parseResponse` normalization — `body.data` on a
`success: true` body and the malformed-response error on a body whose
`success` field is non-boolean — while those two endpoints request the
full response: on a non-null body they receive the raw envelope (after
only the `success: false` error check), and on a `null` body the check's
`data.success` access throws a TypeError. -/
theorem envelopeUniformity_amended (e : Endpoint) (resp : HttpResponse)
    (hok : responseOk resp.status = true) :
    (returnsFullResponse e = false →
      (isTrueLit (jsGet resp.body "success") = true →
        endpointFetch e resp = .ok (jsGet resp.body "data")) ∧
      (∀ j, jsGet resp.body "success" = some j → (∀ b, j ≠ .bool b) →
        endpointFetch e resp = .error "Invalid API response format")) ∧
    (returnsFullResponse e = true → resp.body.isNull = false →
      (isFalseLit (jsGet resp.body "success") &&
          jsTruthyOpt (jsGet resp.body "error")) = false →
      endpointFetch e resp = .ok (some resp.body)) ∧
    (returnsFullResponse e = true → resp.body.isNull = true →
      endpointFetch e resp = .error (typeErrorMessage "success")) ∧
    (returnsFullResponse e = true ↔ (e = .teamSchedule ∨ e = .news)) := by
  refine ⟨?_, ?_, ?_, ?_⟩
  · intro hfull
    have hbase : endpointFetch e resp = parseResponse resp.body := by
      simp [endpointFetch, apiRequest, hok, hfull]
    exact ⟨fun ht => hbase.trans (parseResponse_of_true ht),
      fun j hs hb => hbase.trans (parseResponse_of_nonbool hs hb)⟩
  · intro hfull hnn henv
    simp [endpointFetch, apiRequest, hok, hfull, hnn, henv]
  · intro hfull hnull
    simp [endpointFetch, apiRequest, hok, hfull, hnull]
  · cases e <;> simp [returnsFullResponse]

/-- Invariant of the dependent-query system: the parent query's data exists
only in the success state, and a non-success parent keeps the dependent
query idle with no network calls issued. -/
theorem depReachable_invariant {s : DepState} (h : DepReachable s) :
    (s.parentData ≠ none → s.parentStatus = QStatus.success) ∧
    (s.parentStatus ≠ QStatus.success →
      s.depStatus = QStatus.idle ∧ s.depRequests = 0) := by
  induction h with
  | init => exact ⟨fun hd => absurd rfl hd, fun _ => ⟨rfl, rfl⟩⟩
  | step hr hst ih =>
    obtain ⟨ih1, ih2⟩ := ih
    cases hst with
    | parentStart h1 =>
      exact ⟨fun hd => QStatus.noConfusion (h1.symm.trans (ih1 hd)),
        fun _ => ih2 (by rw [h1]; decide)⟩
    | parentSucceed d h1 =>
      exact ⟨fun _ => rfl, fun hne => absurd rfl hne⟩
    | parentFail h1 =>
      exact ⟨fun hd => QStatus.noConfusion (h1.symm.trans (ih1 hd)),
        fun _ => ih2 (by rw [h1]; decide)⟩
    | depStart h1 h2 =>
      have hps := ih1 (fun hn => by simp [depEnabled, hn, jsTruthyOpt] at h2)
      exact ⟨fun _ => hps, fun hne => absurd hps hne⟩
    | depSucceed h1 =>
      refine ⟨fun hd => ih1 hd, fun hne => ?_⟩
      exact QStatus.noConfusion (h1.symm.trans (ih2 hne).1)
    | depFail h1 =>
      refine ⟨fun hd => ih1 hd, fun hne => ?_⟩
      exact QStatus.noConfusion (h1.symm.trans (ih2 hne).1)

/-- C4: in every reachable state of the dependent-query system, while the
parent query is not in the success state — while it is loading and forever
after it errors — the dependent query is idle and has issued no network
call; and the dependent query steps out of idle only from a state whose
parent is already in the success state. -/
theorem dependentQuery_gated :
    (∀ s, DepReachable s → s.parentStatus ≠ QStatus.success →
      s.depStatus = QStatus.idle ∧ s.depRequests = 0) ∧
    (∀ s t, DepReachable s → DepStep s t → s.depStatus = QStatus.idle →
      t.depStatus ≠ QStatus.idle → s.parentStatus = QStatus.success) := by
  constructor
  · exact fun s hs => (depReachable_invariant hs).2
  · intro s t hs hst hidle hne
    cases hst with
    | parentStart h1 => exact absurd hidle hne
    | parentSucceed d h1 => exact absurd hidle hne
    | parentFail h1 => exact absurd hidle hne
    | depStart h1 h2 =>
      exact (depReachable_invariant hs).1
        (fun hn => by simp [depEnabled, hn, jsTruthyOpt] at h2)
    | depSucceed h1 => exact QStatus.noConfusion (hidle.symm.trans h1)
    | depFail h1 => exact QStatus.noConfusion (hidle.symm.trans h1)

/-- C4 witness: the state reached after the parent query starts and then
fails is reachable, its parent is not in success, and the dependent query
is idle with no network calls issued. -/
theorem dependentQuery_gated_witness :
    (DepState.mk QStatus.err none QStatus.idle 0).depStatus = QStatus.idle ∧
    (DepState.mk QStatus.err none QStatus.idle 0).depRequests = 0 :=
  dependentQuery_gated.1 _
    (DepReachable.step
      (DepReachable.step DepReachable.init (DepStep.parentStart _ rfl))
      (DepStep.parentFail _ rfl))
    (by decide)

/-- C5: for an infinite list (news feed, team schedule): `onEndReached`
issues no next-page request when the latest page reports no more pages or
while a next-page fetch is already in flight; otherwise it issues exactly
one request carrying the next-page param computed from the latest page;
and the flattened item list is exactly the concatenation of all fetched
pages' items in fetch order. -/
theorem pagination_policy (next : Option Json → Option Json) :
    (∀ s, hasNextPage next s.pages = false → onEndReached next s = s) ∧
    (∀ s, s.fetchingNext = true → onEndReached next s = s) ∧
    (∀ s p, s.fetchingNext = false → next s.pages.getLast? = some p →
      p.isNull = false →
      onEndReached next s =
        { s with fetchingNext := true,
                 issuedRequests := s.issuedRequests ++ [p] }) ∧
    (∀ s (qs : List Json),
      (qs.foldl completeNextPage s).pages = s.pages ++ qs ∧
      allTweets (qs.foldl completeNextPage s).pages
        = allTweets s.pages ++ qs.flatMap pageTweets) := by
  refine ⟨?_, ?_, ?_, ?_⟩
  · intro s h
    simp [onEndReached, h]
  · intro s h
    simp [onEndReached, h]
  · intro s p hf hn hnn
    have hHas : hasNextPage next s.pages = true := by
      unfold hasNextPage
      rw [hn]
      cases p with
      | null => simp [Json.isNull] at hnn
      | bool b => rfl
      | num n => rfl
      | str t => rfl
      | arr xs => rfl
      | obj fs => rfl
    unfold onEndReached fetchNextPage
    rw [hHas, hf, hn]
    cases p with
    | null => simp [Json.isNull] at hnn
    | bool b => rfl
    | num n => rfl
    | str t => rfl
    | arr xs => rfl
    | obj fs => rfl
  · intro s qs
    induction qs generalizing s with
    | nil => simp
    | cons q qs ih =>
      have h1 := ih (completeNextPage s q)
      constructor
      · rw [List.foldl_cons, h1.1]
        simp [completeNextPage, List.append_assoc]
      · rw [List.foldl_cons, h1.2]
        simp [completeNextPage, allTweets, List.append_assoc]

/-- C5 witness: with the news param function — a last page with
`hasMore: false` causes no request; an in-flight fetch suppresses the
handler; a last page with `hasMore: true, nextPage: 2` causes exactly one
request carrying param 2. -/
theorem pagination_policy_witness :
    onEndReached newsGetNextPageParam
      ⟨[.obj [("meta", .obj [("pagination", .obj [("hasMore", .bool false)])])]],
        false, []⟩
      = ⟨[.obj [("meta", .obj [("pagination", .obj [("hasMore", .bool false)])])]],
        false, []⟩ ∧
    onEndReached newsGetNextPageParam ⟨[], true, []⟩ = ⟨[], true, []⟩ ∧
    onEndReached newsGetNextPageParam
      ⟨[.obj [("meta", .obj [("pagination",
          .obj [("hasMore", .bool true), ("nextPage", .num 2)])])]], false, []⟩
      = ⟨[.obj [("meta", .obj [("pagination",
          .obj [("hasMore", .bool true), ("nextPage", .num 2)])])]], true,
         [.num 2]⟩ := by
  refine ⟨?_, ?_, ?_⟩
  · exact (pagination_policy newsGetNextPageParam).1 _ rfl
  · exact (pagination_policy newsGetNextPageParam).2.1 _ rfl
  · exact (pagination_policy newsGetNextPageParam).2.2.1 _ (.num 2) rfl rfl rfl

/-- C3 amended witness: a standings fetch unwraps the success envelope to
`data`, a news fetch returns the same envelope whole, and a news fetch of
a `null` body fails with the TypeError. -/
theorem envelopeUniformity_amended_witness :
    endpointFetch .standings
      ⟨200, "OK", .obj [("success", .bool true), ("data", .arr [])]⟩
      = .ok (some (.arr [])) ∧
    endpointFetch .news
      ⟨200, "OK", .obj [("success", .bool true), ("data", .arr [])]⟩
      = .ok (some (.obj [("success", .bool true), ("data", .arr [])])) ∧
    endpointFetch .news ⟨200, "OK", .null⟩
      = .error (typeErrorMessage "success") := by
  refine ⟨?_, ?_, ?_⟩
  · exact ((envelopeUniformity_amended .standings
      ⟨200, "OK", .obj [("success", .bool true), ("data", .arr [])]⟩
      rfl).1 rfl).1 rfl
  · exact (envelopeUniformity_amended .news
      ⟨200, "OK", .obj [("success", .bool true), ("data", .arr [])]⟩
      rfl).2.1 rfl rfl rfl
  · exact (envelopeUniformity_amended .news ⟨200, "OK", .null⟩
      rfl).2.2.1 rfl rfl
